import Mathlib

/-
Verification of the aasdk transport and multiplexing core.

Shallow embedding of the relevant source files:
  src/Common/Data.cpp            -> DataBuffer / DataConstBuffer construction
  include/aasdk/IO/Promise.hpp   -> PromiseState and its resolve / reject steps
  src/Transport/Transport.cpp    -> receive queue and distributeReceivedData
  src/Messenger/Messenger.cpp    -> enqueueReceive / stop
  src/Messenger/MessageInStream.cpp -> startReceive and the frame handlers
  src/USB/USBEndpoint.cpp        -> transferHandler status mapping
  src/TCP/TCPEndpoint.cpp        -> asyncOperationHandler status mapping

Machine integers are modelled as Nat (all the relevant quantities are sizes,
indices and enum values; no arithmetic overflow is reachable in the claims).
Asynchronous effects (promise resolutions, transport reads) are modelled as
explicit event lists returned next to the successor state.
-/

namespace Aasdk

/-- Error codes used by the modelled code paths, from the aasdk error taxonomy
(`ErrorCode` enum; the full enum header is not among the sources, the spec's
section 7 lists the kinds). Only the constructors the claims touch are kept. -/
inductive ErrorCode
  | NONE
  | OPERATION_ABORTED
  | OPERATION_IN_PROGRESS
  | USB_TRANSFER
  | TCP_TRANSFER
  | SSL_DECRYPT
  | MESSENGER_STOPPED
deriving DecidableEq, Repr

/-- An aasdk error: an error code plus a native (OS or library) code, as in
`Error::Error(ErrorCode code, uint32_t nativeCode)` of src/Error/Error.cpp.
The free-form information string is irrelevant to the claims and omitted. -/
structure Error where
  code : ErrorCode
  nativeCode : Nat
deriving DecidableEq, Repr

/-! ## Common/Data.cpp: DataBuffer and DataConstBuffer -/

/-- A mutable, non-owning buffer view, from src/Common/Data.cpp.
The `data` pointer is modelled as `Option Nat`: `none` is `nullptr` and
`some a` is the address `a`; pointer arithmetic becomes addition. -/
structure DataBuffer where
  data : Option Nat
  size : Nat
deriving DecidableEq, Repr

/-- The three-argument constructor
`DataBuffer::DataBuffer(Data::value_type* _data, Data::size_type _size, Data::size_type offset)`
(src/Common/Data.cpp lines 67-75). -/
def DataBuffer.construct (d : Option Nat) (sz offset : Nat) : DataBuffer :=
  if offset > sz ∨ d = none ∨ sz = 0 then
    { data := none, size := 0 }
  else
    { data := d.map (· + offset), size := sz - offset }

/-- The comparison `DataBuffer::operator==(const std::nullptr_t&)`
(src/Common/Data.cpp lines 87-89): true when the pointer is null or the size is 0. -/
def DataBuffer.eqNullptr (b : DataBuffer) : Bool :=
  b.data.isNone || b.size == 0

/-- A read-only, non-owning buffer view, from src/Common/Data.cpp. -/
structure DataConstBuffer where
  cdata : Option Nat
  size : Nat
deriving DecidableEq, Repr

/-- The three-argument constructor
`DataConstBuffer::DataConstBuffer(const Data::value_type* _data, Data::size_type _size, Data::size_type offset)`
(src/Common/Data.cpp lines 104-112). -/
def DataConstBuffer.construct (d : Option Nat) (sz offset : Nat) : DataConstBuffer :=
  if offset > sz ∨ d = none ∨ sz = 0 then
    { cdata := none, size := 0 }
  else
    { cdata := d.map (· + offset), size := sz - offset }

/-- The comparison `DataConstBuffer::operator==(const std::nullptr_t&)`
(src/Common/Data.cpp lines 124-126). -/
def DataConstBuffer.eqNullptr (b : DataConstBuffer) : Bool :=
  b.cdata.isNone || b.size == 0

/-! ## IO/Promise.hpp: single-shot promise -/

/-- Observable state of one `Promise` (include/aasdk/IO/Promise.hpp).
`resolveHandler` / `rejectHandler` record whether the corresponding
`std::function` member is non-null; `contextActive` is
`ioContextWrapper_.isActive()` (both internal pointers null after `reset()`,
see src/IO/IOContextWrapper.cpp). -/
structure PromiseState where
  resolveHandler : Bool
  rejectHandler : Bool
  contextActive : Bool
deriving DecidableEq, Repr

/-- A callback dispatched (posted to the bound executor) by a promise. -/
inductive PromiseDispatch
  | resolveCallback
  | rejectCallback
deriving DecidableEq, Repr

/-- A terminal call made on a promise. -/
inductive PromiseCall
  | resolveCall
  | rejectCall
deriving DecidableEq, Repr

/-- `Promise::resolve` (include/aasdk/IO/Promise.hpp lines 67-79): dispatch the
resolve handler iff it is registered and the context is still active (the
handler is moved out when dispatched); then reset the context wrapper and
clear the reject handler. -/
def Promise.resolveStep (s : PromiseState) : PromiseState × List PromiseDispatch :=
  if s.resolveHandler = true ∧ s.contextActive = true then
    ({ resolveHandler := false, rejectHandler := false, contextActive := false },
     [PromiseDispatch.resolveCallback])
  else
    ({ resolveHandler := s.resolveHandler, rejectHandler := false, contextActive := false }, [])

/-- `Promise::reject` (include/aasdk/IO/Promise.hpp lines 81-92): dual of
`Promise.resolveStep`. -/
def Promise.rejectStep (s : PromiseState) : PromiseState × List PromiseDispatch :=
  if s.rejectHandler = true ∧ s.contextActive = true then
    ({ resolveHandler := false, rejectHandler := false, contextActive := false },
     [PromiseDispatch.rejectCallback])
  else
    ({ resolveHandler := false, rejectHandler := s.rejectHandler, contextActive := false }, [])

/-- One terminal call on a promise. -/
def Promise.step (s : PromiseState) : PromiseCall → PromiseState × List PromiseDispatch
  | PromiseCall.resolveCall => Promise.resolveStep s
  | PromiseCall.rejectCall => Promise.rejectStep s

/-- A sequence of terminal calls on one promise, collecting every dispatched
callback in order. -/
def Promise.run (s : PromiseState) : List PromiseCall → PromiseState × List PromiseDispatch
  | [] => (s, [])
  | c :: cs =>
    let r1 := Promise.step s c
    let r2 := Promise.run r1.1 cs
    (r2.1, r1.2 ++ r2.2)

/-! ## USB/USBEndpoint.cpp and TCP/TCPEndpoint.cpp: completion handlers -/

/-- libusb transfer status values reaching `USBEndpoint::transferHandler`. -/
inductive LibusbTransferStatus
  | COMPLETED
  | ERROR
  | TIMED_OUT
  | CANCELLED
  | STALL
  | NO_DEVICE
  | OVERFLOW_
deriving DecidableEq, Repr

/-- Numeric value of a libusb transfer status (enum libusb_transfer_status),
used as the native code of a `USB_TRANSFER` error. -/
def libusbStatusNative : LibusbTransferStatus → Nat
  | LibusbTransferStatus.COMPLETED => 0
  | LibusbTransferStatus.ERROR => 1
  | LibusbTransferStatus.TIMED_OUT => 2
  | LibusbTransferStatus.CANCELLED => 3
  | LibusbTransferStatus.STALL => 4
  | LibusbTransferStatus.NO_DEVICE => 5
  | LibusbTransferStatus.OVERFLOW_ => 6

/-- A completed libusb transfer as seen by the handler: its final status and
`actual_length`. -/
structure LibusbTransfer where
  status : LibusbTransferStatus
  actualLength : Nat
deriving DecidableEq, Repr

/-- Terminal action taken on the promise associated with a physical transfer. -/
inductive EndpointEvent
  | resolveSize (promiseId : Nat) (n : Nat)
  | rejectWith (promiseId : Nat) (e : Error)
deriving DecidableEq, Repr

/-- Core of `USBEndpoint::transferHandler` (src/USB/USBEndpoint.cpp lines
181-195), acting on the promise stored in `transfers_` for this transfer:
COMPLETED resolves with `actual_length`; CANCELLED rejects with
OPERATION_ABORTED; any other status rejects with USB_TRANSFER carrying the
native status value. -/
def USBEndpoint.transferHandler (promiseId : Nat) (t : LibusbTransfer) : List EndpointEvent :=
  if t.status = LibusbTransferStatus.COMPLETED then
    [EndpointEvent.resolveSize promiseId t.actualLength]
  else if t.status = LibusbTransferStatus.CANCELLED then
    [EndpointEvent.rejectWith promiseId { code := ErrorCode.OPERATION_ABORTED, nativeCode := 0 }]
  else
    [EndpointEvent.rejectWith promiseId
      { code := ErrorCode.USB_TRANSFER, nativeCode := libusbStatusNative t.status }]

/-- Native value of `boost::asio::error::operation_aborted` on POSIX
(ECANCELED = 125); any fixed non-zero value works for the claims. -/
def boostOperationAborted : Nat := 125

/-- `TCPEndpoint::asyncOperationHandler` (src/TCP/TCPEndpoint.cpp lines
90-100): error code 0 (success) resolves with `bytesTransferred`;
`operation_aborted` rejects with OPERATION_ABORTED; any other error code
rejects with TCP_TRANSFER carrying the native value. -/
def TCPEndpoint.asyncOperationHandler (ec : Nat) (bytesTransferred : Nat) (promiseId : Nat) :
    List EndpointEvent :=
  if ec = 0 then
    [EndpointEvent.resolveSize promiseId bytesTransferred]
  else if ec = boostOperationAborted then
    [EndpointEvent.rejectWith promiseId { code := ErrorCode.OPERATION_ABORTED, nativeCode := 0 }]
  else
    [EndpointEvent.rejectWith promiseId { code := ErrorCode.TCP_TRANSFER, nativeCode := ec }]

/-! ## Transport/Transport.cpp: receive queue and data distribution -/

/-- An effect of the transport receive path. -/
inductive TransportEvent
  | resolveData (promiseId : Nat) (data : List Nat)
  | enqueueReceiveIssued
deriving DecidableEq, Repr

/-- `Transport::distributeReceivedData` (src/Transport/Transport.cpp lines
117-133). The pending receive queue is the list of `(size, promiseId)` pairs
in arrival order; the received-data sink is modelled from the spec (the
`DataSink` header is not among the sources) as the FIFO byte sequence it
holds, with `getAvailableSize` its length and `consume n` removing the first
`n` bytes. Each queue entry whose size is available is resolved with exactly
that many bytes and removed; on the first entry with too little data a
physical read into the sink is requested and the loop breaks. Returns the
events, the remaining queue and the remaining sink. -/
def Transport.distributeReceivedData :
    List (Nat × Nat) → List Nat → List TransportEvent × List (Nat × Nat) × List Nat
  | [], sink => ([], [], sink)
  | (n, p) :: rest, sink =>
    if sink.length < n then
      ([TransportEvent.enqueueReceiveIssued], (n, p) :: rest, sink)
    else
      let r := Transport.distributeReceivedData rest (sink.drop n)
      (TransportEvent.resolveData p (sink.take n) :: r.1, r.2.1, r.2.2)

/-- `Transport::receiveHandler` (src/Transport/Transport.cpp lines 104-115):
a physical read of `newBytes` is committed to the sink, then the queued
requests are served. -/
def Transport.receiveHandler (queue : List (Nat × Nat)) (sink newBytes : List Nat) :
    List TransportEvent × List (Nat × Nat) × List Nat :=
  Transport.distributeReceivedData queue (sink ++ newBytes)

/-- Promise resolutions contained in a transport event list, in order. -/
def Transport.resolutions : List TransportEvent → List (Nat × List Nat)
  | [] => []
  | TransportEvent.resolveData p d :: evs => (p, d) :: Transport.resolutions evs
  | TransportEvent.enqueueReceiveIssued :: evs => Transport.resolutions evs

/-! ## Messenger data model -/

/-- Encryption mode of a frame or message. -/
inductive EncryptionType
  | PLAIN
  | ENCRYPTED
deriving DecidableEq, Repr

/-- Whether the payload's id bytes are service-specific or control. -/
inductive MessageType
  | SPECIFIC
  | CONTROL
deriving DecidableEq, Repr

/-- Fragmentation marker of a frame. -/
inductive FrameType
  | FIRST
  | MIDDLE
  | LAST
  | BULK
deriving DecidableEq, Repr

/-- An assembled (possibly still in-progress) logical message. Channel ids are
modelled as Nat. -/
structure Message where
  channelId : Nat
  encryptionType : EncryptionType
  messageType : MessageType
  payload : List Nat
deriving DecidableEq, Repr

/-- A parsed frame header: the attributes `MessageInStream` reads from the
4 wire bytes via the `FrameHeader` accessors. -/
structure FrameHeader where
  channelId : Nat
  frameType : FrameType
  encryptionType : EncryptionType
  messageType : MessageType
deriving DecidableEq, Repr

/-- Modelled from the spec: `FrameHeader::getSizeOf()` — the frame header is
4 bytes on the wire (spec section 3 and 6); the FrameHeader source file is not
among the sources. -/
def FrameHeader.sizeOf : Nat := 4

/-- Modelled from the spec: `FrameSize::getSizeOf(FrameSizeType::SHORT)` — the
short length field is 2 bytes (spec section 3). -/
def FrameSize.shortSizeOf : Nat := 2

/-- Modelled from the spec: `FrameSize::getSizeOf(FrameSizeType::EXTENDED)` —
for FIRST frames the length field is the 2 short bytes plus 4 bytes of total
message length (spec sections 3 and 4.3). -/
def FrameSize.extendedSizeOf : Nat := 6

/-! ## Messenger/MessageInStream.cpp -/

/-- State of a `MessageInStream` (src/Messenger/MessageInStream.cpp).
`promise` is `promise_` (the main promise of the in-flight `startReceive`),
`interleavedPromise` is `interleavedPromise_`, `message` is the current
in-progress `message_`, `messageBuffer` is the per-channel std::map
`messageBuffer_` of suspended partial messages (an association list keyed by
channel id), and the remaining fields mirror `isNewMessage_`,
`isInterleaved_`, `originalMessageChannelId_`, `thisFrameType_`, `frameSize_`.
Promises are identified by Nat tokens. -/
structure InStreamState where
  promise : Option Nat
  interleavedPromise : Option Nat
  message : Option Message
  messageBuffer : List (Nat × Message)
  isNewMessage : Bool
  isInterleaved : Bool
  originalMessageChannelId : Nat
  thisFrameType : FrameType
  frameSize : Nat
deriving DecidableEq, Repr

/-- `messageBuffer_[c] = m` of std::map: replace the entry for key `c` or add
one. -/
def bufferStore : List (Nat × Message) → Nat → Message → List (Nat × Message)
  | [], c, m => [(c, m)]
  | (c1, m1) :: rest, c, m =>
    if c1 = c then (c, m) :: rest else (c1, m1) :: bufferStore rest c m

/-- `messageBuffer_.find(c)` of std::map. -/
def bufferFind : List (Nat × Message) → Nat → Option Message
  | [], _ => none
  | (c1, m1) :: rest, c => if c1 = c then some m1 else bufferFind rest c

/-- `messageBuffer_.erase(it)` after a successful find for key `c`. -/
def bufferErase : List (Nat × Message) → Nat → List (Nat × Message)
  | [], _ => []
  | (c1, m1) :: rest, c => if c1 = c then rest else (c1, m1) :: bufferErase rest c

/-- An effect of the `MessageInStream` receive path. Promise identities are
carried as the `Option Nat` values held in the state at dispatch time. -/
inductive InStreamEvent
  | transportReceive (size : Nat)
  | rejectStartPromise (promiseId : Nat) (e : Error)
  | resolveMainPromise (promiseId : Option Nat) (m : Message)
  | rejectMainPromise (promiseId : Option Nat) (e : Error)
  | resolveInterleavedPromise (promiseId : Option Nat) (m : Message)
deriving DecidableEq, Repr

/-- `MessageInStream::startReceive` (src/Messenger/MessageInStream.cpp lines
39-63): if no receive is in flight (`promise_ == nullptr`), store the promise,
mark a new message and issue a transport read of the frame header; otherwise
reject the newly supplied promise with OPERATION_IN_PROGRESS and leave the
state untouched. -/
def MessageInStream.startReceive (st : InStreamState) (p : Nat) :
    InStreamState × List InStreamEvent :=
  match st.promise with
  | none =>
    ({ st with promise := some p, isNewMessage := true },
     [InStreamEvent.transportReceive FrameHeader.sizeOf])
  | some _ =>
    (st, [InStreamEvent.rejectStartPromise p { code := ErrorCode.OPERATION_IN_PROGRESS, nativeCode := 0 }])

/-- `MessageInStream::setInterleavedHandler` (src/Messenger/MessageInStream.cpp
lines 65-68). -/
def MessageInStream.setInterleavedHandler (st : InStreamState) (p : Nat) : InStreamState :=
  { st with interleavedPromise := some p }

/-- `MessageInStream::receiveFrameHeaderHandler` (src/Messenger/MessageInStream.cpp
lines 70-141) on an already-parsed frame header: reset the interleaved flag;
on a new message record the original channel; if the current message's channel
differs from the header's, move the current message into the per-channel
buffer, set the interleaved flag and clear the current message; FIRST/BULK
start a fresh message; MIDDLE/LAST restore the buffered partial message for
the header's channel when present (clearing the interleaved flag when the
header's channel equals the original one); if no message resulted, start a
fresh one; finally record the frame type and issue the read of the length
field (extended for FIRST, short otherwise). -/
def MessageInStream.receiveFrameHeaderHandler (st : InStreamState) (fh : FrameHeader) :
    InStreamState × List InStreamEvent :=
  let st1 := { st with isInterleaved := false }
  let st2 :=
    if st1.isNewMessage then
      { st1 with originalMessageChannelId := fh.channelId, isNewMessage := false }
    else st1
  let st3 :=
    match st2.message with
    | some m =>
      if m.channelId ≠ fh.channelId then
        { st2 with
            isInterleaved := true
            messageBuffer := bufferStore st2.messageBuffer m.channelId m
            message := none }
      else st2
    | none => st2
  let st4 :=
    if fh.frameType = FrameType.FIRST ∨ fh.frameType = FrameType.BULK then
      { st3 with message := some ⟨fh.channelId, fh.encryptionType, fh.messageType, []⟩ }
    else
      match bufferFind st3.messageBuffer fh.channelId with
      | some bm =>
        let st3a :=
          if st3.originalMessageChannelId = fh.channelId then
            { st3 with isInterleaved := false }
          else st3
        { st3a with
            message := some bm
            messageBuffer := bufferErase st3a.messageBuffer fh.channelId }
      | none => st3
  let st5 :=
    if st4.message = none then
      { st4 with message := some ⟨fh.channelId, fh.encryptionType, fh.messageType, []⟩ }
    else st4
  let st6 := { st5 with thisFrameType := fh.frameType }
  let sizeFieldLen :=
    if fh.frameType = FrameType.FIRST then FrameSize.extendedSizeOf else FrameSize.shortSizeOf
  (st6, [InStreamEvent.transportReceive sizeFieldLen])

/-- `MessageInStream::receiveFrameSizeHandler` (src/Messenger/MessageInStream.cpp
lines 143-159) on the already-parsed payload length: record it and issue the
payload read. -/
def MessageInStream.receiveFrameSizeHandler (st : InStreamState) (n : Nat) :
    InStreamState × List InStreamEvent :=
  ({ st with frameSize := n }, [InStreamEvent.transportReceive n])

/-- The payload-append step of `MessageInStream::receiveFramePayloadHandler`
(src/Messenger/MessageInStream.cpp lines 163-180): for an ENCRYPTED message
the injected cryptor (a parameter: the Cryptor is outside the modelled core)
decrypts the buffer and the plaintext is appended to the payload; a cryptor
error is propagated; a PLAIN buffer is appended verbatim. -/
def MessageInStream.appendStep (decrypt : Nat → List Nat → Except Error (List Nat))
    (frameSize : Nat) (m : Message) (buffer : List Nat) : Except Error Message :=
  if m.encryptionType = EncryptionType.ENCRYPTED then
    match decrypt frameSize buffer with
    | Except.error e => Except.error e
    | Except.ok plain => Except.ok { m with payload := m.payload ++ plain }
  else
    Except.ok { m with payload := m.payload ++ buffer }

/-- `MessageInStream::receiveFramePayloadHandler` (src/Messenger/MessageInStream.cpp
lines 161-213). On a decryption error the current message is dropped and the
main promise rejected. Otherwise, after appending: a BULK or LAST frame
completes the message — if not interleaved the main promise is resolved with
it and the handler is done, else the interleaved promise is resolved with it
and the next frame header read is issued; a FIRST or MIDDLE frame keeps the
message and issues the next frame header read. The `none` branch for the
current message is unreachable in the source: the header handler always
installs a message before a payload read is issued. -/
def MessageInStream.receiveFramePayloadHandler
    (decrypt : Nat → List Nat → Except Error (List Nat))
    (st : InStreamState) (buffer : List Nat) : InStreamState × List InStreamEvent :=
  match st.message with
  | none => (st, [])
  | some m =>
    match MessageInStream.appendStep decrypt st.frameSize m buffer with
    | Except.error e =>
      ({ st with message := none, promise := none },
       [InStreamEvent.rejectMainPromise st.promise e])
    | Except.ok m1 =>
      if st.thisFrameType = FrameType.BULK ∨ st.thisFrameType = FrameType.LAST then
        if st.isInterleaved = false then
          ({ st with message := none, promise := none },
           [InStreamEvent.resolveMainPromise st.promise m1])
        else
          ({ st with message := none },
           [InStreamEvent.resolveInterleavedPromise st.interleavedPromise m1,
            InStreamEvent.transportReceive FrameHeader.sizeOf])
      else
        ({ st with message := some m1 },
         [InStreamEvent.transportReceive FrameHeader.sizeOf])

/-! ## Messenger/Messenger.cpp -/

/-- Modelled from the spec: `ChannelReceiveMessageQueue.hpp` is not among the
sources; the spec (section 4.5) describes `receive_messages` as per-channel
FIFO deques of messages. The deques are flattened into one arrival-ordered
list; `empty(c)` and `pop(c)` act on the subsequence of channel `c`, so
popping takes the oldest message of that channel. -/
def messageQueuePop : List Message → Nat → Option (Message × List Message)
  | [], _ => none
  | m :: rest, c =>
    if m.channelId = c then some (m, rest)
    else
      match messageQueuePop rest c with
      | none => none
      | some (x, q) => some (x, m :: q)

/-- Modelled from the spec: `ChannelReceivePromiseQueue.hpp` is not among the
sources; the spec (section 4.5) describes `receive_promises` as per-channel
FIFO deques of promises, and `size()` in the source counts pending promises
across all channels. The deques are flattened into one arrival-ordered list of
`(channelId, promiseId)` pairs, so `size()` is its length. -/
def promiseQueueSize (q : List (Nat × Nat)) : Nat := q.length

/-- State of the `Messenger` (src/Messenger/Messenger.cpp):
`channelReceivePromiseQueue` holds `(channelId, promiseId)` pairs of waiting
receive promises in arrival order, `channelReceiveMessageQueue` the buffered
arrived messages, `channelSendPromiseQueue` the outbound `(message, promiseId)`
queue, and the two indices mirror the tracing counters. -/
structure MessengerState where
  channelReceivePromiseQueue : List (Nat × Nat)
  channelReceiveMessageQueue : List Message
  channelSendPromiseQueue : List (Message × Nat)
  currentPromiseIndex : Int
  currentMessageIndex : Int
deriving DecidableEq, Repr

/-- An effect of the Messenger receive path. -/
inductive MessengerEvent
  | interleavedHandlerInstalled
  | resolveReceivePromise (promiseId : Nat) (m : Message)
  | rejectReceivePromise (promiseId : Nat) (e : Error)
  | startReceiveIssued (channelId : Nat)
deriving DecidableEq, Repr

/-- `Messenger::enqueueReceive` (src/Messenger/Messenger.cpp lines 39-75), the
body dispatched on the receive strand: install a fresh interleaved handler;
if the channel's message queue holds a message, pop the oldest and resolve the
promise with it; otherwise push the promise on the channel's promise queue
and, if it is the only pending receive promise across all channels, issue
`startReceive` on the in-stream for this channel. -/
def Messenger.enqueueReceive (st : MessengerState) (channelId : Nat) (p : Nat) :
    MessengerState × List MessengerEvent :=
  match messageQueuePop st.channelReceiveMessageQueue channelId with
  | some (m, rest) =>
    ({ st with channelReceiveMessageQueue := rest },
     [MessengerEvent.interleavedHandlerInstalled,
      MessengerEvent.resolveReceivePromise p m])
  | none =>
    let st1 :=
      { st with
          currentPromiseIndex := st.currentPromiseIndex + 1
          channelReceivePromiseQueue := st.channelReceivePromiseQueue ++ [(channelId, p)] }
    if promiseQueueSize st1.channelReceivePromiseQueue = 1 then
      ({ st1 with currentMessageIndex := st1.currentMessageIndex + 1 },
       [MessengerEvent.interleavedHandlerInstalled,
        MessengerEvent.startReceiveIssued channelId])
    else
      (st1, [MessengerEvent.interleavedHandlerInstalled])

/-- `Messenger::stop` (src/Messenger/Messenger.cpp lines 180-186): reset the
promise tracing counter and, on the receive strand, clear the buffered message
queue. Nothing else happens: no promise is rejected, the pending promise and
send queues are untouched, and no flag is set against later enqueues. -/
def Messenger.stop (st : MessengerState) : MessengerState × List MessengerEvent :=
  ({ st with currentPromiseIndex := 0, channelReceiveMessageQueue := [] }, [])

/-! ## Helper lemmas -/

theorem bufferFind_store_self (B : List (Nat × Message)) (c : Nat) (m : Message) :
    bufferFind (bufferStore B c m) c = some m := by
  induction B with
  | nil => simp [bufferStore, bufferFind]
  | cons hd tl ih =>
    obtain ⟨c1, m1⟩ := hd
    by_cases h : c1 = c <;> simp [bufferStore, bufferFind, h, ih]

theorem bufferFind_store_ne (B : List (Nat × Message)) (c c2 : Nat) (m : Message) (h : c ≠ c2) :
    bufferFind (bufferStore B c2 m) c = bufferFind B c := by
  have hc2 : ¬ c2 = c := fun hh => h hh.symm
  induction B with
  | nil => simp [bufferStore, bufferFind, hc2]
  | cons hd tl ih =>
    obtain ⟨c1, m1⟩ := hd
    simp only [bufferStore]
    by_cases h1 : c1 = c2
    · have hc1 : ¬ c1 = c := fun hh => h (hh.symm.trans h1)
      simp [if_pos h1, bufferFind, hc2, hc1]
    · by_cases h2 : c1 = c <;> simp [if_neg h1, bufferFind, h2, ih, h]

theorem bufferFind_erase_ne (B : List (Nat × Message)) (c c2 : Nat) (h : c ≠ c2) :
    bufferFind (bufferErase B c2) c = bufferFind B c := by
  induction B with
  | nil => simp [bufferErase, bufferFind]
  | cons hd tl ih =>
    obtain ⟨c1, m1⟩ := hd
    simp only [bufferErase]
    by_cases h1 : c1 = c2
    · have hc1 : ¬ c1 = c := fun hh => h (hh.symm.trans h1)
      simp [if_pos h1, bufferFind, hc1]
    · by_cases h2 : c1 = c <;> simp [if_neg h1, bufferFind, h2, ih, h]

/-! ## Claim theorems -/

/-- C10: for every argument triple, constructing a `DataBuffer` or a
`DataConstBuffer` is total and never yields an out-of-bounds view: if the
offset exceeds the size, the pointer is null, or the size is zero, the result
is the null buffer (null pointer, size 0, comparing equal to `nullptr`);
otherwise the result points at `data + offset` with size `size - offset`. -/
theorem C10_buffer_construction_safe (d : Option Nat) (sz offset a : Nat) :
    ((offset > sz ∨ d = none ∨ sz = 0) →
      DataBuffer.construct d sz offset = { data := none, size := 0 } ∧
      DataConstBuffer.construct d sz offset = { cdata := none, size := 0 } ∧
      (DataBuffer.construct d sz offset).eqNullptr = true ∧
      (DataConstBuffer.construct d sz offset).eqNullptr = true) ∧
    (d = some a → offset ≤ sz → sz ≠ 0 →
      DataBuffer.construct d sz offset = { data := some (a + offset), size := sz - offset } ∧
      DataConstBuffer.construct d sz offset = { cdata := some (a + offset), size := sz - offset }) := by
  constructor
  · intro h
    simp [DataBuffer.construct, DataConstBuffer.construct, DataBuffer.eqNullptr,
      DataConstBuffer.eqNullptr, h]
  · intro hd hle hsz
    subst hd
    have hcond : ¬(sz < offset ∨ (some a : Option Nat) = none ∨ sz = 0) := by
      simp only [not_or]
      exact ⟨not_lt.mpr hle, by simp, hsz⟩
    simp [DataBuffer.construct, DataConstBuffer.construct, hcond]
    exact ⟨hle, hsz⟩

theorem C10_buffer_construction_safe_witness :
    DataBuffer.construct (some 10) 5 2 = { data := some 12, size := 3 } ∧
    DataConstBuffer.construct none 5 2 = { cdata := none, size := 0 } ∧
    (DataBuffer.construct (some 10) 5 7).eqNullptr = true :=
  ⟨((C10_buffer_construction_safe (some 10) 5 2 10).2 rfl (by decide) (by decide)).1,
   ((C10_buffer_construction_safe none 5 2 0).1 (by simp)).2.1,
   ((C10_buffer_construction_safe (some 10) 5 7 10).1 (by simp)).2.2.1⟩

/-- C9: on either physical endpoint, a cancelled transfer rejects the
associated promise with OPERATION_ABORTED; any other failure rejects with
USB_TRANSFER (or TCP_TRANSFER) carrying the native status code; a successful
transfer resolves the promise with the number of bytes transferred. -/
theorem C9_endpoint_status_mapping (p : Nat) (t : LibusbTransfer) (ec n : Nat) :
    (t.status = LibusbTransferStatus.COMPLETED →
      USBEndpoint.transferHandler p t = [EndpointEvent.resolveSize p t.actualLength]) ∧
    (t.status = LibusbTransferStatus.CANCELLED →
      USBEndpoint.transferHandler p t =
        [EndpointEvent.rejectWith p { code := ErrorCode.OPERATION_ABORTED, nativeCode := 0 }]) ∧
    (t.status ≠ LibusbTransferStatus.COMPLETED → t.status ≠ LibusbTransferStatus.CANCELLED →
      USBEndpoint.transferHandler p t =
        [EndpointEvent.rejectWith p
          { code := ErrorCode.USB_TRANSFER, nativeCode := libusbStatusNative t.status }]) ∧
    (ec = 0 →
      TCPEndpoint.asyncOperationHandler ec n p = [EndpointEvent.resolveSize p n]) ∧
    (ec = boostOperationAborted →
      TCPEndpoint.asyncOperationHandler ec n p =
        [EndpointEvent.rejectWith p { code := ErrorCode.OPERATION_ABORTED, nativeCode := 0 }]) ∧
    (ec ≠ 0 → ec ≠ boostOperationAborted →
      TCPEndpoint.asyncOperationHandler ec n p =
        [EndpointEvent.rejectWith p { code := ErrorCode.TCP_TRANSFER, nativeCode := ec }]) := by
  refine ⟨?_, ?_, ?_, ?_, ?_, ?_⟩
  · intro h
    simp [USBEndpoint.transferHandler, h]
  · intro h
    simp [USBEndpoint.transferHandler, h]
  · intro h1 h2
    simp [USBEndpoint.transferHandler, h1, h2]
  · intro h
    simp [TCPEndpoint.asyncOperationHandler, h]
  · intro h
    simp [TCPEndpoint.asyncOperationHandler, h, boostOperationAborted]
  · intro h1 h2
    simp [TCPEndpoint.asyncOperationHandler, h1, h2]

theorem C9_endpoint_status_mapping_witness :
    USBEndpoint.transferHandler 1 ⟨LibusbTransferStatus.CANCELLED, 0⟩ =
      [EndpointEvent.rejectWith 1 { code := ErrorCode.OPERATION_ABORTED, nativeCode := 0 }] ∧
    USBEndpoint.transferHandler 2 ⟨LibusbTransferStatus.NO_DEVICE, 0⟩ =
      [EndpointEvent.rejectWith 2 { code := ErrorCode.USB_TRANSFER, nativeCode := 5 }] ∧
    USBEndpoint.transferHandler 3 ⟨LibusbTransferStatus.COMPLETED, 64⟩ =
      [EndpointEvent.resolveSize 3 64] ∧
    TCPEndpoint.asyncOperationHandler 125 0 4 =
      [EndpointEvent.rejectWith 4 { code := ErrorCode.OPERATION_ABORTED, nativeCode := 0 }] ∧
    TCPEndpoint.asyncOperationHandler 104 0 5 =
      [EndpointEvent.rejectWith 5 { code := ErrorCode.TCP_TRANSFER, nativeCode := 104 }] ∧
    TCPEndpoint.asyncOperationHandler 0 32 6 = [EndpointEvent.resolveSize 6 32] :=
  ⟨(C9_endpoint_status_mapping 1 ⟨LibusbTransferStatus.CANCELLED, 0⟩ 0 0).2.1 rfl,
   (C9_endpoint_status_mapping 2 ⟨LibusbTransferStatus.NO_DEVICE, 0⟩ 0 0).2.2.1
     (by decide) (by decide),
   (C9_endpoint_status_mapping 3 ⟨LibusbTransferStatus.COMPLETED, 64⟩ 0 0).1 rfl,
   (C9_endpoint_status_mapping 4 ⟨LibusbTransferStatus.COMPLETED, 0⟩ 125 0).2.2.2.2.1 rfl,
   (C9_endpoint_status_mapping 5 ⟨LibusbTransferStatus.COMPLETED, 0⟩ 104 0).2.2.2.2.2
     (by decide) (by decide),
   (C9_endpoint_status_mapping 6 ⟨LibusbTransferStatus.COMPLETED, 0⟩ 0 32).2.2.2.1 rfl⟩

/-- C7: calling `startReceive` while a previous receive is still in flight
(the main promise is installed) rejects the newly supplied promise with
OPERATION_IN_PROGRESS and leaves the state unchanged; with no receive in
flight the promise is stored and a frame-header read is issued. -/
theorem C7_startReceive_operation_in_progress (st : InStreamState) (p q : Nat) :
    (st.promise = none →
      MessageInStream.startReceive st p =
        ({ st with promise := some p, isNewMessage := true },
         [InStreamEvent.transportReceive FrameHeader.sizeOf])) ∧
    (st.promise = some q →
      MessageInStream.startReceive st p =
        (st, [InStreamEvent.rejectStartPromise p
          { code := ErrorCode.OPERATION_IN_PROGRESS, nativeCode := 0 }])) := by
  constructor <;> intro h <;> simp [MessageInStream.startReceive, h]

theorem C7_startReceive_operation_in_progress_witness :
    MessageInStream.startReceive
        ⟨some 5, none, none, [], false, false, 0, FrameType.BULK, 0⟩ 6 =
      (⟨some 5, none, none, [], false, false, 0, FrameType.BULK, 0⟩,
       [InStreamEvent.rejectStartPromise 6
         { code := ErrorCode.OPERATION_IN_PROGRESS, nativeCode := 0 }]) ∧
    MessageInStream.startReceive
        ⟨none, none, none, [], false, false, 0, FrameType.BULK, 0⟩ 6 =
      (⟨some 6, none, none, [], true, false, 0, FrameType.BULK, 0⟩,
       [InStreamEvent.transportReceive FrameHeader.sizeOf]) :=
  ⟨(C7_startReceive_operation_in_progress
      ⟨some 5, none, none, [], false, false, 0, FrameType.BULK, 0⟩ 6 5).2 rfl,
   (C7_startReceive_operation_in_progress
      ⟨none, none, none, [], false, false, 0, FrameType.BULK, 0⟩ 6 0).1 rfl⟩

/-- C8: when decryption of an ENCRYPTED frame payload fails, the main promise
is rejected with the decryption error, the in-progress message is discarded,
and no resolution event (hence no partial payload delivery) occurs. -/
theorem C8_decrypt_failure_discards_message
    (decrypt : Nat → List Nat → Except Error (List Nat))
    (st : InStreamState) (buffer : List Nat) (m : Message) (e : Error) :
    st.message = some m →
    m.encryptionType = EncryptionType.ENCRYPTED →
    decrypt st.frameSize buffer = Except.error e →
    MessageInStream.receiveFramePayloadHandler decrypt st buffer =
      ({ st with message := none, promise := none },
       [InStreamEvent.rejectMainPromise st.promise e]) := by
  intro hm henc hd
  simp [MessageInStream.receiveFramePayloadHandler, hm, MessageInStream.appendStep, henc, hd]

theorem C8_decrypt_failure_discards_message_witness :
    MessageInStream.receiveFramePayloadHandler
        (fun _ _ => Except.error { code := ErrorCode.SSL_DECRYPT, nativeCode := 0 })
        ⟨some 3, some 4, some ⟨1, EncryptionType.ENCRYPTED, MessageType.SPECIFIC, [9]⟩,
         [], false, false, 1, FrameType.LAST, 2⟩ [7, 8] =
      (⟨none, some 4, none, [], false, false, 1, FrameType.LAST, 2⟩,
       [InStreamEvent.rejectMainPromise (some 3)
         { code := ErrorCode.SSL_DECRYPT, nativeCode := 0 }]) :=
  C8_decrypt_failure_discards_message
    (fun _ _ => Except.error { code := ErrorCode.SSL_DECRYPT, nativeCode := 0 })
    ⟨some 3, some 4, some ⟨1, EncryptionType.ENCRYPTED, MessageType.SPECIFIC, [9]⟩,
     [], false, false, 1, FrameType.LAST, 2⟩ [7, 8]
    ⟨1, EncryptionType.ENCRYPTED, MessageType.SPECIFIC, [9]⟩
    { code := ErrorCode.SSL_DECRYPT, nativeCode := 0 } rfl rfl rfl

theorem promise_run_released (cs : List PromiseCall) :
    Promise.run ⟨false, false, false⟩ cs = (⟨false, false, false⟩, []) := by
  induction cs with
  | nil => rfl
  | cons c cs ih =>
    cases c <;>
      simp [Promise.run, Promise.step, Promise.resolveStep, Promise.rejectStep, ih]

theorem promise_step_releases (s : PromiseState) (c : PromiseCall)
    (h : s.contextActive = true) :
    (Promise.step s c).1 = ⟨false, false, false⟩ ∧ (Promise.step s c).2.length ≤ 1 := by
  obtain ⟨rh, jh, ca⟩ := s
  subst h
  cases c <;> cases rh <;> cases jh <;>
    simp [Promise.step, Promise.resolveStep, Promise.rejectStep]

/-- C2: a promise transitions at most once: for any sequence of resolve and
reject calls starting from a still-active promise, every dispatched callback
comes from the first call (at most one callback in total); after that first
call both handlers and the executor reference are released, and every
subsequent call is a silent no-op, leaving the state unchanged and
dispatching nothing. -/
theorem C2_promise_single_shot (s : PromiseState) (c : PromiseCall) (cs : List PromiseCall) :
    s.contextActive = true →
    (Promise.run s (c :: cs)).2 = (Promise.step s c).2 ∧
    (Promise.step s c).2.length ≤ 1 ∧
    (Promise.step s c).1 =
      { resolveHandler := false, rejectHandler := false, contextActive := false } ∧
    Promise.run (Promise.step s c).1 cs = ((Promise.step s c).1, []) ∧
    (Promise.run s (c :: cs)).1 = (Promise.step s c).1 := by
  intro h
  obtain ⟨hrel, hlen⟩ := promise_step_releases s c h
  refine ⟨?_, hlen, hrel, ?_, ?_⟩
  · simp [Promise.run, hrel, promise_run_released]
  · rw [hrel]
    exact promise_run_released cs
  · simp [Promise.run, hrel, promise_run_released]

theorem C2_promise_single_shot_witness :
    (Promise.run ⟨true, true, true⟩
        [PromiseCall.resolveCall, PromiseCall.rejectCall, PromiseCall.resolveCall]).2 =
      [PromiseDispatch.resolveCallback] ∧
    (Promise.run ⟨true, true, true⟩
        [PromiseCall.resolveCall, PromiseCall.rejectCall, PromiseCall.resolveCall]).1 =
      { resolveHandler := false, rejectHandler := false, contextActive := false } := by
  have h := C2_promise_single_shot ⟨true, true, true⟩ PromiseCall.resolveCall
    [PromiseCall.rejectCall, PromiseCall.resolveCall] rfl
  exact ⟨h.1.trans (by decide), h.2.2.2.2.trans h.2.2.1⟩

/-- C4: a message under assembly is completed exactly when a BULK or LAST
frame payload is appended: then, if not interleaved, the main promise is
resolved with it and no further frame-header read is issued for this
`startReceive`; if interleaved, the interleaved promise is resolved with it
and the next frame-header read is issued; after a FIRST or MIDDLE frame the
stream continues reading without resolving anything. -/
theorem C4_bulk_or_last_completes_message
    (decrypt : Nat → List Nat → Except Error (List Nat))
    (st : InStreamState) (buffer : List Nat) (m m1 : Message) :
    st.message = some m →
    MessageInStream.appendStep decrypt st.frameSize m buffer = Except.ok m1 →
    (((st.thisFrameType = FrameType.BULK ∨ st.thisFrameType = FrameType.LAST) ∧
        st.isInterleaved = false) →
      MessageInStream.receiveFramePayloadHandler decrypt st buffer =
        ({ st with message := none, promise := none },
         [InStreamEvent.resolveMainPromise st.promise m1])) ∧
    (((st.thisFrameType = FrameType.BULK ∨ st.thisFrameType = FrameType.LAST) ∧
        st.isInterleaved = true) →
      MessageInStream.receiveFramePayloadHandler decrypt st buffer =
        ({ st with message := none },
         [InStreamEvent.resolveInterleavedPromise st.interleavedPromise m1,
          InStreamEvent.transportReceive FrameHeader.sizeOf])) ∧
    ((st.thisFrameType = FrameType.FIRST ∨ st.thisFrameType = FrameType.MIDDLE) →
      MessageInStream.receiveFramePayloadHandler decrypt st buffer =
        ({ st with message := some m1 },
         [InStreamEvent.transportReceive FrameHeader.sizeOf])) := by
  intro hm hap
  refine ⟨?_, ?_, ?_⟩
  · rintro ⟨hbl | hbl, hint⟩ <;>
      simp [MessageInStream.receiveFramePayloadHandler, hm, hap, hbl, hint]
  · rintro ⟨hbl | hbl, hint⟩ <;>
      simp [MessageInStream.receiveFramePayloadHandler, hm, hap, hbl, hint]
  · rintro (hf | hf) <;>
      simp [MessageInStream.receiveFramePayloadHandler, hm, hap, hf]

theorem C4_bulk_or_last_completes_message_witness :
    MessageInStream.receiveFramePayloadHandler (fun _ _ => Except.error ⟨ErrorCode.NONE, 0⟩)
        ⟨some 3, some 4, some ⟨2, EncryptionType.PLAIN, MessageType.SPECIFIC, [1]⟩,
         [], false, false, 2, FrameType.LAST, 2⟩ [7, 8] =
      (⟨none, some 4, none, [], false, false, 2, FrameType.LAST, 2⟩,
       [InStreamEvent.resolveMainPromise (some 3)
          ⟨2, EncryptionType.PLAIN, MessageType.SPECIFIC, [1, 7, 8]⟩]) ∧
    MessageInStream.receiveFramePayloadHandler (fun _ _ => Except.error ⟨ErrorCode.NONE, 0⟩)
        ⟨some 3, some 4, some ⟨2, EncryptionType.PLAIN, MessageType.SPECIFIC, [1]⟩,
         [], false, false, 2, FrameType.MIDDLE, 2⟩ [7, 8] =
      (⟨some 3, some 4, some ⟨2, EncryptionType.PLAIN, MessageType.SPECIFIC, [1, 7, 8]⟩,
        [], false, false, 2, FrameType.MIDDLE, 2⟩,
       [InStreamEvent.transportReceive FrameHeader.sizeOf]) :=
  ⟨(C4_bulk_or_last_completes_message (fun _ _ => Except.error ⟨ErrorCode.NONE, 0⟩)
      ⟨some 3, some 4, some ⟨2, EncryptionType.PLAIN, MessageType.SPECIFIC, [1]⟩,
       [], false, false, 2, FrameType.LAST, 2⟩ [7, 8]
      ⟨2, EncryptionType.PLAIN, MessageType.SPECIFIC, [1]⟩
      ⟨2, EncryptionType.PLAIN, MessageType.SPECIFIC, [1, 7, 8]⟩ rfl rfl).1
      ⟨Or.inr rfl, rfl⟩,
   (C4_bulk_or_last_completes_message (fun _ _ => Except.error ⟨ErrorCode.NONE, 0⟩)
      ⟨some 3, some 4, some ⟨2, EncryptionType.PLAIN, MessageType.SPECIFIC, [1]⟩,
       [], false, false, 2, FrameType.MIDDLE, 2⟩ [7, 8]
      ⟨2, EncryptionType.PLAIN, MessageType.SPECIFIC, [1]⟩
      ⟨2, EncryptionType.PLAIN, MessageType.SPECIFIC, [1, 7, 8]⟩ rfl rfl).2.2
      (Or.inr rfl)⟩

/-- C3: evaluating `Messenger::stop` as written in the source on a state with
a pending receive promise (id 7 on channel 0) and a pending send promise
(id 9): the call clears the buffered message queue and resets the tracing
counter but dispatches no event at all — in particular it rejects neither
pending promise, and both promise queues survive unchanged, contradicting the
documented contract that every outstanding promise is rejected with
MESSENGER_STOPPED. -/
theorem C3_stop_leaves_promises_pending :
    Messenger.stop
        ⟨[(0, 7)],
         [⟨2, EncryptionType.PLAIN, MessageType.SPECIFIC, [5]⟩],
         [(⟨1, EncryptionType.PLAIN, MessageType.SPECIFIC, [1]⟩, 9)], 1, 1⟩ =
      (⟨[(0, 7)], [],
        [(⟨1, EncryptionType.PLAIN, MessageType.SPECIFIC, [1]⟩, 9)], 0, 1⟩,
       []) ∧
    Messenger.enqueueReceive
        (Messenger.stop
          ⟨[(0, 7)],
           [⟨2, EncryptionType.PLAIN, MessageType.SPECIFIC, [5]⟩],
           [(⟨1, EncryptionType.PLAIN, MessageType.SPECIFIC, [1]⟩, 9)], 1, 1⟩).1 0 11 =
      (⟨[(0, 7), (0, 11)], [],
        [(⟨1, EncryptionType.PLAIN, MessageType.SPECIFIC, [1]⟩, 9)], 1, 1⟩,
       [MessengerEvent.interleavedHandlerInstalled]) := by
  refine ⟨rfl, ?_⟩
  rfl

/-- C6: `enqueueReceive(channel, promise)`: if the holding queue for the
channel is non-empty, the oldest buffered message of that channel is popped
and the promise is resolved with it immediately, the promise queue untouched;
otherwise the promise is appended to the promise queue, the message queue is
untouched, and a new in-stream `startReceive` is issued if and only if this
is the first pending receive promise across all channels. -/
theorem C6_enqueueReceive_rendezvous (st : MessengerState) (c p : Nat) :
    (∀ m rest, messageQueuePop st.channelReceiveMessageQueue c = some (m, rest) →
      Messenger.enqueueReceive st c p =
        ({ st with channelReceiveMessageQueue := rest },
         [MessengerEvent.interleavedHandlerInstalled,
          MessengerEvent.resolveReceivePromise p m])) ∧
    (messageQueuePop st.channelReceiveMessageQueue c = none →
      (Messenger.enqueueReceive st c p).1.channelReceivePromiseQueue =
        st.channelReceivePromiseQueue ++ [(c, p)] ∧
      (Messenger.enqueueReceive st c p).1.channelReceiveMessageQueue =
        st.channelReceiveMessageQueue ∧
      (MessengerEvent.startReceiveIssued c ∈ (Messenger.enqueueReceive st c p).2 ↔
        st.channelReceivePromiseQueue = [])) := by
  constructor
  · intro m rest h
    simp [Messenger.enqueueReceive, h]
  · intro h
    by_cases hq : st.channelReceivePromiseQueue = []
    · simp [Messenger.enqueueReceive, h, promiseQueueSize, hq]
    · have hlen : (st.channelReceivePromiseQueue ++ [(c, p)]).length ≠ 1 := by
        simp only [List.length_append, List.length_singleton]
        intro hcontra
        exact hq (List.length_eq_zero.mp (by omega))
      simp [Messenger.enqueueReceive, h, promiseQueueSize, hlen, hq]

theorem C6_enqueueReceive_rendezvous_witness :
    Messenger.enqueueReceive
        ⟨[], [⟨2, EncryptionType.PLAIN, MessageType.SPECIFIC, [9]⟩], [], 0, 0⟩ 2 7 =
      (⟨[], [], [], 0, 0⟩,
       [MessengerEvent.interleavedHandlerInstalled,
        MessengerEvent.resolveReceivePromise 7 ⟨2, EncryptionType.PLAIN, MessageType.SPECIFIC, [9]⟩]) ∧
    (MessengerEvent.startReceiveIssued 3 ∈
        (Messenger.enqueueReceive ⟨[], [], [], 0, 0⟩ 3 8).2 ↔
      ([] : List (Nat × Nat)) = []) :=
  ⟨(C6_enqueueReceive_rendezvous
      ⟨[], [⟨2, EncryptionType.PLAIN, MessageType.SPECIFIC, [9]⟩], [], 0, 0⟩ 2 7).1
      ⟨2, EncryptionType.PLAIN, MessageType.SPECIFIC, [9]⟩ [] rfl,
   ((C6_enqueueReceive_rendezvous ⟨[], [], [], 0, 0⟩ 3 8).2 rfl).2.2⟩

/-- C5 counterexample: a MIDDLE header for channel 5 arrives while the
current in-progress message is on channel 5 itself (no channel mismatch) and
the partial-message map is empty. The claim requires a fresh empty message to
be started whenever no partial exists for the channel; the code instead keeps
the current message with its payload intact, so the resulting current message
is not the fresh empty one. -/
theorem C5_counterexample_middle_keeps_current :
    bufferFind
        (⟨some 3, some 4, some ⟨5, EncryptionType.PLAIN, MessageType.SPECIFIC, [1, 2, 3]⟩,
          [], false, false, 5, FrameType.FIRST, 0⟩ : InStreamState).messageBuffer 5 = none ∧
    (MessageInStream.receiveFrameHeaderHandler
        ⟨some 3, some 4, some ⟨5, EncryptionType.PLAIN, MessageType.SPECIFIC, [1, 2, 3]⟩,
         [], false, false, 5, FrameType.FIRST, 0⟩
        ⟨5, FrameType.MIDDLE, EncryptionType.PLAIN, MessageType.SPECIFIC⟩).1.message =
      some ⟨5, EncryptionType.PLAIN, MessageType.SPECIFIC, [1, 2, 3]⟩ ∧
    (MessageInStream.receiveFrameHeaderHandler
        ⟨some 3, some 4, some ⟨5, EncryptionType.PLAIN, MessageType.SPECIFIC, [1, 2, 3]⟩,
         [], false, false, 5, FrameType.FIRST, 0⟩
        ⟨5, FrameType.MIDDLE, EncryptionType.PLAIN, MessageType.SPECIFIC⟩).1.message ≠
      some ⟨5, EncryptionType.PLAIN, MessageType.SPECIFIC, []⟩ := by
  refine ⟨rfl, rfl, ?_⟩
  intro hcontra
  simp [MessageInStream.receiveFrameHeaderHandler, bufferFind] at hcontra

/-- C1: `distributeReceivedData` serves the pending receive queue FIFO from
the sink: the resolved promises are exactly an initial segment of the queue
in order, every one of them receives exactly the byte count it asked for, the
resolved bytes followed by the remaining sink reassemble the original sink
(no byte dropped, surplus stays for subsequent waiters), the remaining queue
is the corresponding final segment, and when a request is left at the head of
the queue the sink holds fewer bytes than it needs (so one physical chunk
satisfies as many queued requests as it can). -/
theorem C1_distribute_fifo_exact_no_drop (queue : List (Nat × Nat)) (sink : List Nat) :
    (Transport.resolutions (Transport.distributeReceivedData queue sink).1).map Prod.fst =
      (queue.take
        (Transport.resolutions (Transport.distributeReceivedData queue sink).1).length).map
        Prod.snd ∧
    (Transport.resolutions (Transport.distributeReceivedData queue sink).1).map
        (fun x => x.2.length) =
      (queue.take
        (Transport.resolutions (Transport.distributeReceivedData queue sink).1).length).map
        Prod.fst ∧
    ((Transport.resolutions (Transport.distributeReceivedData queue sink).1).map
        Prod.snd).flatten ++ (Transport.distributeReceivedData queue sink).2.2 = sink ∧
    (Transport.distributeReceivedData queue sink).2.1 =
      queue.drop
        (Transport.resolutions (Transport.distributeReceivedData queue sink).1).length ∧
    (∀ n p rest, (Transport.distributeReceivedData queue sink).2.1 = (n, p) :: rest →
      (Transport.distributeReceivedData queue sink).2.2.length < n) := by
  induction queue generalizing sink with
  | nil =>
    simp [Transport.distributeReceivedData, Transport.resolutions]
  | cons hd rest ih =>
    obtain ⟨n, p⟩ := hd
    by_cases h : sink.length < n
    · have hD : Transport.distributeReceivedData ((n, p) :: rest) sink =
          ([TransportEvent.enqueueReceiveIssued], (n, p) :: rest, sink) := by
        simp [Transport.distributeReceivedData, h]
      refine ⟨?_, ?_, ?_, ?_, ?_⟩ <;> rw [hD]
      · simp [Transport.resolutions]
      · simp [Transport.resolutions]
      · simp [Transport.resolutions]
      · simp [Transport.resolutions]
      · intro n1 p1 rest1 heq
        injection heq with h1 h2
        injection h1 with hn hp
        subst hn
        exact h
    · obtain ⟨ih1, ih2, ih3, ih4, ih5⟩ := ih (sink.drop n)
      have hlen : (sink.take n).length = n := by
        rw [List.length_take]
        omega
      have hD : Transport.distributeReceivedData ((n, p) :: rest) sink =
          (TransportEvent.resolveData p (sink.take n) ::
            (Transport.distributeReceivedData rest (sink.drop n)).1,
           (Transport.distributeReceivedData rest (sink.drop n)).2.1,
           (Transport.distributeReceivedData rest (sink.drop n)).2.2) := by
        simp [Transport.distributeReceivedData, h]
      refine ⟨?_, ?_, ?_, ?_, ?_⟩ <;> rw [hD]
      · simp [Transport.resolutions, ih1]
      · simp [Transport.resolutions, ih2, hlen]
      · simp only [Transport.resolutions, List.map_cons, List.flatten_cons,
          List.append_assoc, ih3]
        exact List.take_append_drop n sink
      · simp [Transport.resolutions, ih4]
      · intro n1 p1 rest1 heq
        exact ih5 n1 p1 rest1 heq

theorem C1_distribute_fifo_exact_no_drop_witness :
    Transport.distributeReceivedData [(2, 10), (3, 11), (4, 12)] [1, 2, 3, 4, 5, 6] =
      ([TransportEvent.resolveData 10 [1, 2], TransportEvent.resolveData 11 [3, 4, 5],
        TransportEvent.enqueueReceiveIssued],
       [(4, 12)], [6]) ∧
    (Transport.distributeReceivedData [(2, 10), (3, 11), (4, 12)] [1, 2, 3, 4, 5, 6]).2.2.length <
      4 :=
  ⟨by decide,
   (C1_distribute_fifo_exact_no_drop [(2, 10), (3, 11), (4, 12)] [1, 2, 3, 4, 5, 6]).2.2.2.2
     4 12 [] (by decide)⟩

/-- C5 (amended): when a frame header is processed: (1) a FIRST or BULK
header starts a fresh message with the header's attributes; (2) if a current
message exists whose channel differs from the header's, it is moved into the
per-channel partial map, and (2') the interleaved flag ends set unless a
MIDDLE/LAST restore on the originally recorded channel cleared it again;
(3) a MIDDLE or LAST header restores the partial message stored for the
header's channel when one exists, clearing the interleaved flag when that
channel equals the originally recorded one; (4) when no partial exists for a
MIDDLE or LAST header, a current message on the same channel simply continues
to be assembled, and only when no current message remains (none, or stashed
because of a channel mismatch) is a fresh empty message started (tolerant
recovery). -/
theorem C5_frame_header_interleaving (st : InStreamState) (fh : FrameHeader) :
    ((fh.frameType = FrameType.FIRST ∨ fh.frameType = FrameType.BULK) →
      (MessageInStream.receiveFrameHeaderHandler st fh).1.message =
        some ⟨fh.channelId, fh.encryptionType, fh.messageType, []⟩) ∧
    (∀ m, st.message = some m → m.channelId ≠ fh.channelId →
      bufferFind (MessageInStream.receiveFrameHeaderHandler st fh).1.messageBuffer
          m.channelId = some m) ∧
    (∀ m, st.message = some m → m.channelId ≠ fh.channelId →
      (MessageInStream.receiveFrameHeaderHandler st fh).1.isInterleaved = true ∨
      ((fh.frameType = FrameType.MIDDLE ∨ fh.frameType = FrameType.LAST) ∧
        (if st.isNewMessage then fh.channelId else st.originalMessageChannelId) =
          fh.channelId ∧
        bufferFind st.messageBuffer fh.channelId ≠ none)) ∧
    (∀ bm, (fh.frameType = FrameType.MIDDLE ∨ fh.frameType = FrameType.LAST) →
      bufferFind st.messageBuffer fh.channelId = some bm →
      (MessageInStream.receiveFrameHeaderHandler st fh).1.message = some bm ∧
      ((if st.isNewMessage then fh.channelId else st.originalMessageChannelId) =
          fh.channelId →
        (MessageInStream.receiveFrameHeaderHandler st fh).1.isInterleaved = false)) ∧
    ((fh.frameType = FrameType.MIDDLE ∨ fh.frameType = FrameType.LAST) →
      bufferFind st.messageBuffer fh.channelId = none →
      ((∀ m, st.message = some m → m.channelId = fh.channelId →
        (MessageInStream.receiveFrameHeaderHandler st fh).1.message = some m) ∧
       ((st.message = none ∨ ∃ m, st.message = some m ∧ m.channelId ≠ fh.channelId) →
        (MessageInStream.receiveFrameHeaderHandler st fh).1.message =
          some ⟨fh.channelId, fh.encryptionType, fh.messageType, []⟩))) := by
  refine ⟨?_, ?_, ?_, ?_, ?_⟩
  · rintro (hf | hf) <;>
      simp [MessageInStream.receiveFrameHeaderHandler, hf]
  · intro m hm hne
    by_cases hf : fh.frameType = FrameType.FIRST ∨ fh.frameType = FrameType.BULK
    · cases hnew : st.isNewMessage <;>
        simp [MessageInStream.receiveFrameHeaderHandler, hnew, hm, hne, hf,
          bufferFind_store_self]
    · have hsne : bufferFind (bufferStore st.messageBuffer m.channelId m) fh.channelId =
          bufferFind st.messageBuffer fh.channelId :=
        bufferFind_store_ne _ _ _ _ (Ne.symm hne)
      have herase : ∀ B, bufferFind (bufferErase B fh.channelId) m.channelId =
          bufferFind B m.channelId := fun B => bufferFind_erase_ne B _ _ hne
      cases hfind : bufferFind st.messageBuffer fh.channelId with
      | none =>
        cases hnew : st.isNewMessage <;>
          simp [MessageInStream.receiveFrameHeaderHandler, hnew, hm, hne, hf,
            hsne, hfind, bufferFind_store_self]
      | some bm =>
        cases hnew : st.isNewMessage
        · by_cases ho : st.originalMessageChannelId = fh.channelId <;>
            simp [MessageInStream.receiveFrameHeaderHandler, hnew, hm, hne, hf,
              hsne, hfind, herase, ho, bufferFind_store_self]
        · simp [MessageInStream.receiveFrameHeaderHandler, hnew, hm, hne, hf,
            hsne, hfind, herase, bufferFind_store_self]
  · intro m hm hne
    by_cases hf : fh.frameType = FrameType.FIRST ∨ fh.frameType = FrameType.BULK
    · left
      cases hnew : st.isNewMessage <;>
        simp [MessageInStream.receiveFrameHeaderHandler, hnew, hm, hne, hf]
    · have hml : fh.frameType = FrameType.MIDDLE ∨ fh.frameType = FrameType.LAST := by
        cases hft : fh.frameType <;> simp [hft] at hf ⊢
      have hsne : bufferFind (bufferStore st.messageBuffer m.channelId m) fh.channelId =
          bufferFind st.messageBuffer fh.channelId :=
        bufferFind_store_ne _ _ _ _ (Ne.symm hne)
      cases hfind : bufferFind st.messageBuffer fh.channelId with
      | none =>
        left
        cases hnew : st.isNewMessage <;>
          simp [MessageInStream.receiveFrameHeaderHandler, hnew, hm, hne, hf, hsne, hfind]
      | some bm =>
        cases hnew : st.isNewMessage
        · by_cases ho : st.originalMessageChannelId = fh.channelId
          · right
            simp [hml, hnew, ho, hfind]
          · left
            simp [MessageInStream.receiveFrameHeaderHandler, hnew, hm, hne, hf,
              hsne, hfind, ho]
        · right
          simp [hml, hnew, hfind]
  · intro bm hml hfind
    have hf : ¬ (fh.frameType = FrameType.FIRST ∨ fh.frameType = FrameType.BULK) := by
      rcases hml with h | h <;> simp [h]
    cases hmsg : st.message with
    | none =>
      cases hnew : st.isNewMessage
      · by_cases ho : st.originalMessageChannelId = fh.channelId <;>
          simp [MessageInStream.receiveFrameHeaderHandler, hnew, hmsg, hf, hfind, ho]
      · simp [MessageInStream.receiveFrameHeaderHandler, hnew, hmsg, hf, hfind]
    | some m =>
      by_cases hc : m.channelId = fh.channelId
      · cases hnew : st.isNewMessage
        · by_cases ho : st.originalMessageChannelId = fh.channelId <;>
            simp [MessageInStream.receiveFrameHeaderHandler, hnew, hmsg, hc, hf, hfind, ho]
        · simp [MessageInStream.receiveFrameHeaderHandler, hnew, hmsg, hc, hf, hfind]
      · have hsne : bufferFind (bufferStore st.messageBuffer m.channelId m) fh.channelId =
            bufferFind st.messageBuffer fh.channelId :=
          bufferFind_store_ne _ _ _ _ (fun hh => hc hh.symm)
        cases hnew : st.isNewMessage
        · by_cases ho : st.originalMessageChannelId = fh.channelId <;>
            simp [MessageInStream.receiveFrameHeaderHandler, hnew, hmsg, hc, hf,
              hsne, hfind, ho]
        · simp [MessageInStream.receiveFrameHeaderHandler, hnew, hmsg, hc, hf, hsne, hfind]
  · intro hml hfind
    have hf : ¬ (fh.frameType = FrameType.FIRST ∨ fh.frameType = FrameType.BULK) := by
      rcases hml with h | h <;> simp [h]
    constructor
    · intro m hm hc
      cases hnew : st.isNewMessage <;>
        simp [MessageInStream.receiveFrameHeaderHandler, hnew, hm, hc, hf, hfind]
    · rintro (hnone | ⟨m, hm, hne⟩)
      · cases hnew : st.isNewMessage <;>
          simp [MessageInStream.receiveFrameHeaderHandler, hnew, hnone, hf, hfind]
      · have hsne : bufferFind (bufferStore st.messageBuffer m.channelId m) fh.channelId =
            bufferFind st.messageBuffer fh.channelId :=
          bufferFind_store_ne _ _ _ _ (Ne.symm hne)
        cases hnew : st.isNewMessage <;>
          simp [MessageInStream.receiveFrameHeaderHandler, hnew, hm, hne, hf, hsne, hfind]

theorem C5_frame_header_interleaving_witness :
    bufferFind
        (MessageInStream.receiveFrameHeaderHandler
          ⟨some 9, some 8, some ⟨2, EncryptionType.PLAIN, MessageType.SPECIFIC, [4]⟩,
           [(1, ⟨1, EncryptionType.PLAIN, MessageType.SPECIFIC, [7]⟩)],
           false, false, 1, FrameType.FIRST, 0⟩
          ⟨1, FrameType.MIDDLE, EncryptionType.PLAIN, MessageType.SPECIFIC⟩).1.messageBuffer
        2 = some ⟨2, EncryptionType.PLAIN, MessageType.SPECIFIC, [4]⟩ ∧
    (MessageInStream.receiveFrameHeaderHandler
        ⟨some 9, some 8, some ⟨2, EncryptionType.PLAIN, MessageType.SPECIFIC, [4]⟩,
         [(1, ⟨1, EncryptionType.PLAIN, MessageType.SPECIFIC, [7]⟩)],
         false, false, 1, FrameType.FIRST, 0⟩
        ⟨1, FrameType.MIDDLE, EncryptionType.PLAIN, MessageType.SPECIFIC⟩).1.message =
      some ⟨1, EncryptionType.PLAIN, MessageType.SPECIFIC, [7]⟩ ∧
    (MessageInStream.receiveFrameHeaderHandler
        ⟨some 9, some 8, some ⟨2, EncryptionType.PLAIN, MessageType.SPECIFIC, [4]⟩,
         [(1, ⟨1, EncryptionType.PLAIN, MessageType.SPECIFIC, [7]⟩)],
         false, false, 1, FrameType.FIRST, 0⟩
        ⟨1, FrameType.MIDDLE, EncryptionType.PLAIN, MessageType.SPECIFIC⟩).1.isInterleaved =
      false :=
  ⟨(C5_frame_header_interleaving
      ⟨some 9, some 8, some ⟨2, EncryptionType.PLAIN, MessageType.SPECIFIC, [4]⟩,
       [(1, ⟨1, EncryptionType.PLAIN, MessageType.SPECIFIC, [7]⟩)],
       false, false, 1, FrameType.FIRST, 0⟩
      ⟨1, FrameType.MIDDLE, EncryptionType.PLAIN, MessageType.SPECIFIC⟩).2.1
      ⟨2, EncryptionType.PLAIN, MessageType.SPECIFIC, [4]⟩ rfl (by decide),
   ((C5_frame_header_interleaving
      ⟨some 9, some 8, some ⟨2, EncryptionType.PLAIN, MessageType.SPECIFIC, [4]⟩,
       [(1, ⟨1, EncryptionType.PLAIN, MessageType.SPECIFIC, [7]⟩)],
       false, false, 1, FrameType.FIRST, 0⟩
      ⟨1, FrameType.MIDDLE, EncryptionType.PLAIN, MessageType.SPECIFIC⟩).2.2.2.1
      ⟨1, EncryptionType.PLAIN, MessageType.SPECIFIC, [7]⟩ (Or.inl rfl) rfl).1,
   ((C5_frame_header_interleaving
      ⟨some 9, some 8, some ⟨2, EncryptionType.PLAIN, MessageType.SPECIFIC, [4]⟩,
       [(1, ⟨1, EncryptionType.PLAIN, MessageType.SPECIFIC, [7]⟩)],
       false, false, 1, FrameType.FIRST, 0⟩
      ⟨1, FrameType.MIDDLE, EncryptionType.PLAIN, MessageType.SPECIFIC⟩).2.2.2.1
      ⟨1, EncryptionType.PLAIN, MessageType.SPECIFIC, [7]⟩ (Or.inl rfl) rfl).2 (by decide)⟩

end Aasdk
